import Mathlib

/-!
Verification of the wyzesense2mqtt dongle protocol engine and gateway glue.

Shallow embedding of `src/wyzesense2mqtt/wyzesense.py` (frame codec, packet
factory, dispatcher, event decoder) and of the availability / event-handling
logic in `src/wyzesense2mqtt/wyzesense2mqtt.py`.

Modelling conventions:
- Python `bytes` values are `List Nat` with every element `< 256`.
- Machine integers are `Nat` (or `Int` where the code subtracts), with
  `% 2 ^ 16` and `% 256` written out where the code masks or packs.
- A Python function that can raise is an `Except` value; distinct exception
  classes are distinct error constructors (`EOFError` vs `AssertionError`
  vs `TypeError` ...).
- Wall-clock `float` seconds are modelled as integers; no claim depends on
  sub-second fractions.
-/

/-- Embeds `bytes_to_hex` (wyzesense.py line 14): comma-separated lowercase
hex rendering of a byte string, `"<None>"` for the empty (falsy) case. -/
def bytes_to_hex (s : List Nat) : String :=
  if s = [] then "<None>"
  else String.intercalate "," (s.map (fun x =>
    String.mk [
      Char.ofNat (if x / 16 % 16 < 10 then 48 + x / 16 % 16 else 87 + x / 16 % 16),
      Char.ofNat (if x % 16 < 10 then 48 + x % 16 else 87 + x % 16)]))

/-- Embeds the f-string `f"{event:02X}"`: two-digit uppercase hex of a byte. -/
def hex2Upper (x : Nat) : String :=
  String.mk [
    Char.ofNat (if x / 16 % 16 < 10 then 48 + x / 16 % 16 else 55 + x / 16 % 16),
    Char.ofNat (if x % 16 < 10 then 48 + x % 16 else 55 + x % 16)]

/-- Embeds `checksum_from_bytes` (wyzesense.py line 21): `sum(bytes(s)) & 0xFFFF`. -/
def checksum_from_bytes (s : List Nat) : Nat := s.sum % 65536

def TYPE_SYNC : Nat := 0x43
def TYPE_ASYNC : Nat := 0x53

/-- Embeds `MAKE_CMD` (wyzesense.py line 65): `(type << 8) | cmd`.  Every call
site in the source feeds `cmd` a single byte (`< 256`), where the bitwise or
coincides with addition. -/
def MAKE_CMD (ty cmd : Nat) : Nat := ty * 256 + cmd

/-- Payload slot of a `Packet`: Python stores either a `bytes` payload or, for
`ASYNC_ACK` packets only (asserted in `Packet.__init__`), the acknowledged
16-bit command as an `int`. -/
inductive PktPayload where
  | data (bs : List Nat)
  | ackCmd (c : Nat)
  deriving DecidableEq

/-- Embeds the `Packet` object (wyzesense.py line 69): a 16-bit command word
and a payload. -/
structure Packet where
  cmd : Nat
  payload : PktPayload
  deriving DecidableEq

def Packet.CMD_GET_ENR : Nat := MAKE_CMD TYPE_SYNC 0x02
def Packet.CMD_GET_MAC : Nat := MAKE_CMD TYPE_SYNC 0x04
def Packet.CMD_GET_KEY : Nat := MAKE_CMD TYPE_SYNC 0x06
def Packet.CMD_INQUIRY : Nat := MAKE_CMD TYPE_SYNC 0x27
def Packet.CMD_UPDATE_CC1310 : Nat := MAKE_CMD TYPE_SYNC 0x12
def Packet.CMD_SET_CH554_UPGRADE : Nat := MAKE_CMD TYPE_SYNC 0x0E
def Packet.ASYNC_ACK : Nat := MAKE_CMD TYPE_ASYNC 0xFF
def Packet.CMD_FINISH_AUTH : Nat := MAKE_CMD TYPE_ASYNC 0x14
def Packet.CMD_GET_DONGLE_VERSION : Nat := MAKE_CMD TYPE_ASYNC 0x16
def Packet.CMD_START_STOP_SCAN : Nat := MAKE_CMD TYPE_ASYNC 0x1C
def Packet.CMD_GET_SENSOR_R1 : Nat := MAKE_CMD TYPE_ASYNC 0x21
def Packet.CMD_VERIFY_SENSOR : Nat := MAKE_CMD TYPE_ASYNC 0x23
def Packet.CMD_DEL_SENSOR : Nat := MAKE_CMD TYPE_ASYNC 0x25
def Packet.CMD_DEL_ALL_SENSORS : Nat := MAKE_CMD TYPE_ASYNC 0x3F
def Packet.CMD_GET_SENSOR_COUNT : Nat := MAKE_CMD TYPE_ASYNC 0x2E
def Packet.CMD_GET_SENSOR_LIST : Nat := MAKE_CMD TYPE_ASYNC 0x30
def Packet.CMD_PLAY_CHIME : Nat := MAKE_CMD TYPE_ASYNC 0x70
def Packet.NOTIFY_SENSOR_ALARM : Nat := MAKE_CMD TYPE_ASYNC 0x19
def Packet.NOTIFY_SENSOR_SCAN : Nat := MAKE_CMD TYPE_ASYNC 0x20
def Packet.NOTIFY_SYNC_TIME : Nat := MAKE_CMD TYPE_ASYNC 0x32
def Packet.NOTIFY_EVENT_LOG : Nat := MAKE_CMD TYPE_ASYNC 0x35
def Packet.NOTIFY_SENSOR_ALARM2 : Nat := MAKE_CMD TYPE_ASYNC 0x55

/-- Embeds the class-attribute dictionary of `Packet` (wyzesense.py lines
74-107): a Python attribute read `cls.NAME` succeeds exactly when `NAME` is
one of these keys. -/
def Packet.classAttrs : List (String × Nat) := [
  ("CMD_GET_ENR", Packet.CMD_GET_ENR),
  ("CMD_GET_MAC", Packet.CMD_GET_MAC),
  ("CMD_GET_KEY", Packet.CMD_GET_KEY),
  ("CMD_INQUIRY", Packet.CMD_INQUIRY),
  ("CMD_UPDATE_CC1310", Packet.CMD_UPDATE_CC1310),
  ("CMD_SET_CH554_UPGRADE", Packet.CMD_SET_CH554_UPGRADE),
  ("ASYNC_ACK", Packet.ASYNC_ACK),
  ("CMD_FINISH_AUTH", Packet.CMD_FINISH_AUTH),
  ("CMD_GET_DONGLE_VERSION", Packet.CMD_GET_DONGLE_VERSION),
  ("CMD_START_STOP_SCAN", Packet.CMD_START_STOP_SCAN),
  ("CMD_GET_SENSOR_R1", Packet.CMD_GET_SENSOR_R1),
  ("CMD_VERIFY_SENSOR", Packet.CMD_VERIFY_SENSOR),
  ("CMD_DEL_SENSOR", Packet.CMD_DEL_SENSOR),
  ("CMD_DEL_ALL_SENSORS", Packet.CMD_DEL_ALL_SENSORS),
  ("CMD_GET_SENSOR_COUNT", Packet.CMD_GET_SENSOR_COUNT),
  ("CMD_GET_SENSOR_LIST", Packet.CMD_GET_SENSOR_LIST),
  ("CMD_PLAY_CHIME", Packet.CMD_PLAY_CHIME),
  ("NOTIFY_SENSOR_ALARM", Packet.NOTIFY_SENSOR_ALARM),
  ("NOTIFY_SENSOR_SCAN", Packet.NOTIFY_SENSOR_SCAN),
  ("NOTIFY_SYNC_TIME", Packet.NOTIFY_SYNC_TIME),
  ("NOTIFY_EVENT_LOG", Packet.NOTIFY_EVENT_LOG),
  ("NOTIFY_SENSOR_ALARM2", Packet.NOTIFY_SENSOR_ALARM2)]

def Packet.getClassAttr (name : String) : Option Nat :=
  Packet.classAttrs.lookup name

/-- Embeds the `Packet.Length` property (wyzesense.py line 123): 7 for an
`ASYNC_ACK`, payload length + 7 otherwise.  The `ackCmd` fallback in the
non-ACK branch is unreachable: `Packet.__init__` asserts an `int` payload
only for `ASYNC_ACK`. -/
def Packet.Length (p : Packet) : Nat :=
  if p.cmd = Packet.ASYNC_ACK then 7
  else match p.payload with
    | .data bs => bs.length + 7
    | .ackCmd _ => 7

/-- Embeds `Packet.Send` (wyzesense.py line 138) up to the `os.write` call:
the exact byte string the packet serialises to.  `struct.pack(">HB", 0xAA55,
cmd >> 8)` produces the two magic bytes `0xAA, 0x55` in that order, then the
class byte.  `none` models the cases where `struct.pack` (length or command
byte out of `B` range) or the `bytes` payload invariant would fail; no
constructor-built packet hits them. -/
def Packet.Send (p : Packet) : Option (List Nat) :=
  let core : Option (List Nat) :=
    if p.cmd / 256 ≥ 256 then none
    else if p.cmd = Packet.ASYNC_ACK then
      match p.payload with
      | .ackCmd c => some [0xAA, 0x55, p.cmd / 256, c % 256, p.cmd % 256]
      | .data _ => none
    else
      match p.payload with
      | .data bs =>
        if bs.length + 3 ≤ 255 ∧ ∀ b ∈ bs, b < 256 then
          some ([0xAA, 0x55, p.cmd / 256, bs.length + 3, p.cmd % 256] ++ bs)
        else none
      | .ackCmd _ => none
  core.map (fun l => l ++ [checksum_from_bytes l / 256, checksum_from_bytes l % 256])

/-- Outcome classes of `Packet.Parse`: `eofErr` is the `EOFError` raised for
a buffer that is too short (recoverable: the worker waits for more bytes);
`assertErr` is the `AssertionError` raised by `assert len(s) >= 7` in the
`ASYNC_ACK` branch (not caught by the worker). -/
inductive ParseErr where
  | eofErr
  | assertErr
  deriving DecidableEq

/-- Embeds `Packet.Parse` (wyzesense.py line 155).  `Except.ok none` models
the `return None` taken on magic or checksum mismatch; a successful decode
returns the packet (the worker then consumes `pkt.Length` bytes). -/
def Packet.Parse (s : List Nat) : Except ParseErr (Option Packet) :=
  match s with
  | m0 :: m1 :: cmdType :: b2 :: cmdId :: rest =>
    if m0 * 256 + m1 ≠ 0x55AA ∧ m0 * 256 + m1 ≠ 0xAA55 then Except.ok none
    else if MAKE_CMD cmdType cmdId = Packet.ASYNC_ACK then
      match rest with
      | c0 :: c1 :: _ =>
        if c0 * 256 + c1 ≠ checksum_from_bytes [m0, m1, cmdType, b2, cmdId] then Except.ok none
        else Except.ok (some ⟨MAKE_CMD cmdType cmdId, .ackCmd (MAKE_CMD cmdType b2)⟩)
      | _ => Except.error .assertErr
    else if b2 + 4 ≤ 5 + rest.length then
      let strunc := (m0 :: m1 :: cmdType :: b2 :: cmdId :: rest).take (b2 + 4)
      let pre := strunc.take (strunc.length - 2)
      let csPair := strunc.drop (strunc.length - 2)
      if csPair.foldl (fun a b => a * 256 + b) 0 ≠ checksum_from_bytes pre then Except.ok none
      else Except.ok (some ⟨MAKE_CMD cmdType cmdId, .data (pre.drop 5)⟩)
    else Except.error .eofErr
  | _ => Except.error .eofErr

/-- Embeds `Packet.AsyncAck` (wyzesense.py line 287).  The constructor asserts
`cmd >> 8 == TYPE_ASYNC`; the only call site (`Dongle._HandlePacket`) is
inside that guard. -/
def Packet.AsyncAck (cmd : Nat) : Packet := ⟨Packet.ASYNC_ACK, .ackCmd cmd⟩

/-- Big-endian 8-byte rendering of `struct.pack(">Q", ms)`, used by
`Packet.SyncTimeAck`. -/
def packQ (ms : Nat) : List Nat :=
  [ms / 256 ^ 7 % 256, ms / 256 ^ 6 % 256, ms / 256 ^ 5 % 256, ms / 256 ^ 4 % 256,
   ms / 256 ^ 3 % 256, ms / 256 ^ 2 % 256, ms / 256 % 256, ms % 256]

/-- The packets the `Packet` factory classmethods (wyzesense.py lines
194-290) can return, with each constructor's `assert` preconditions as
hypotheses.  MAC strings are 8 ASCII characters, so their encoded bytes are
below 128.  `DelAllSensor` is absent: it raises `AttributeError` before
building a packet (see `Packet.DelAllSensor` below). -/
inductive ConstructorBuilt : Packet → Prop where
  | getVersion : ConstructorBuilt ⟨Packet.CMD_GET_DONGLE_VERSION, .data []⟩
  | inquiry : ConstructorBuilt ⟨Packet.CMD_INQUIRY, .data []⟩
  | getEnr (r : List Nat) (h : r.length = 16) (hb : ∀ b ∈ r, b < 256) :
      ConstructorBuilt ⟨Packet.CMD_GET_ENR, .data r⟩
  | getMAC : ConstructorBuilt ⟨Packet.CMD_GET_MAC, .data []⟩
  | getKey : ConstructorBuilt ⟨Packet.CMD_GET_KEY, .data []⟩
  | enableScan : ConstructorBuilt ⟨Packet.CMD_START_STOP_SCAN, .data [0x01]⟩
  | disableScan : ConstructorBuilt ⟨Packet.CMD_START_STOP_SCAN, .data [0x00]⟩
  | getSensorCount : ConstructorBuilt ⟨Packet.CMD_GET_SENSOR_COUNT, .data []⟩
  | getSensorList (count : Nat) (h : count ≤ 0xFF) :
      ConstructorBuilt ⟨Packet.CMD_GET_SENSOR_LIST, .data [count]⟩
  | finishAuth : ConstructorBuilt ⟨Packet.CMD_FINISH_AUTH, .data [0xFF]⟩
  | delSensor (mac : List Nat) (h : mac.length = 8) (hb : ∀ b ∈ mac, b < 128) :
      ConstructorBuilt ⟨Packet.CMD_DEL_SENSOR, .data mac⟩
  | getSensorR1 (mac r : List Nat) (hm : mac.length = 8) (hmb : ∀ b ∈ mac, b < 128)
      (hr : r.length = 16) (hrb : ∀ b ∈ r, b < 256) :
      ConstructorBuilt ⟨Packet.CMD_GET_SENSOR_R1, .data (mac ++ r)⟩
  | verifySensor (mac : List Nat) (h : mac.length = 8) (hb : ∀ b ∈ mac, b < 128) :
      ConstructorBuilt ⟨Packet.CMD_VERIFY_SENSOR, .data (mac ++ [0xFF, 0x04])⟩
  | updateCC1310 : ConstructorBuilt ⟨Packet.CMD_UPDATE_CC1310, .data []⟩
  | ch554Upgrade : ConstructorBuilt ⟨Packet.CMD_SET_CH554_UPGRADE, .data []⟩
  | playChime (mac : List Nat) (ringid repeatCnt volume : Nat)
      (hm : mac.length = 8) (hmb : ∀ b ∈ mac, b < 128)
      (hr : ringid ≤ 0xFF) (hrep : repeatCnt < 256) :
      ConstructorBuilt ⟨Packet.CMD_PLAY_CHIME,
        .data (mac ++ [ringid, repeatCnt, min (max volume 1) 9])⟩
  | syncTimeAck (ms : Nat) :
      ConstructorBuilt ⟨Packet.NOTIFY_SYNC_TIME + 1, .data (packQ ms)⟩
  | asyncAck (cmd : Nat) (h : cmd / 256 = TYPE_ASYNC) :
      ConstructorBuilt (Packet.AsyncAck cmd)

/-- Well-formedness every factory-built packet enjoys: a 16-bit command,
byte-valued payload short enough for the length byte, and the
`Packet.__init__` payload-type assertions. -/
def wfPacket (p : Packet) : Prop :=
  p.cmd < 65536 ∧
  match p.payload with
  | .ackCmd c => p.cmd = Packet.ASYNC_ACK ∧ c / 256 = TYPE_ASYNC
  | .data bs => p.cmd ≠ Packet.ASYNC_ACK ∧ bs.length + 3 ≤ 255 ∧ ∀ b ∈ bs, b < 256


/-- Index of the first occurrence of the magic pair `0x55 0xAA` in the
buffer: embeds `s.find(b"\x55\xAA")` in `Dongle._Worker` (wyzesense.py line
527), with `none` for Python's `-1`. -/
def findMagicIdx : List Nat → Option Nat
  | a :: b :: t =>
    if a = 0x55 ∧ b = 0xAA then some 0
    else (findMagicIdx (b :: t)).map (· + 1)
  | _ => none

/-- How a run of the worker loop over a fixed buffer ends: `awaitMore` models
the branches that sleep and poll for further HID bytes (no magic found, or
`EOFError` from a short frame); `crashed` models an uncaught exception
(`AssertionError`) reaching the worker's outer `except`, which latches
`last_exception` and ends the thread. -/
inductive WorkerEnd where
  | awaitMore
  | crashed
  deriving DecidableEq

/-- Embeds the per-iteration behaviour of `Dongle._Worker` (wyzesense.py
lines 515-552) on a buffer to which no further bytes arrive: seek the magic,
try `Packet.Parse`; on `None` drop two bytes and rescan; on success consume
`pkt.Length` bytes and deliver the packet.  `fuel` bounds the number of
iterations; every returned packet list is a prefix of the list any larger
fuel returns. -/
def workerRun : Nat → List Nat → List Packet × WorkerEnd
  | 0, _ => ([], .awaitMore)
  | fuel + 1, s =>
    match findMagicIdx s with
    | none => ([], .awaitMore)
    | some start =>
      let s' := s.drop start
      match Packet.Parse s' with
      | .error .eofErr => ([], .awaitMore)
      | .error .assertErr => ([], .crashed)
      | .ok none => workerRun fuel (s'.drop 2)
      | .ok (some pkt) =>
        let rec_result := workerRun fuel (s'.drop pkt.Length)
        (pkt :: rec_result.1, rec_result.2)

/-- The same frame `Packet.Send` produces, but in the `55 AA` magic byte
order in which frames arrive from the dongle (the order `Packet.Parse` also
accepts and `_Worker` scans for).  The checksum is a byte sum, so swapping
the two magic bytes leaves it valid. -/
def ingressFrame (p : Packet) : Option (List Nat) :=
  (Packet.Send p).map (fun l =>
    match l with
    | a :: b :: t => b :: a :: t
    | l' => l')

/-- Observable actions of `Dongle._HandlePacket` (wyzesense.py line 505), in
program order: a packet written to the dongle, or a handler invocation for a
received packet. -/
inductive WireAction where
  | sendPkt (p : Packet)
  | runHandler (p : Packet)
  deriving DecidableEq

/-- Embeds `Dongle._HandlePacket` (wyzesense.py lines 505-513): if the
received packet's class is `TYPE_ASYNC` and it is not itself an `ASYNC_ACK`,
send `Packet.AsyncAck(pkt.Cmd)` first; then run the handler. -/
def handlePacketTrace (p : Packet) : List WireAction :=
  if p.cmd / 256 = TYPE_ASYNC ∧ p.cmd ≠ Packet.ASYNC_ACK then
    [.sendPkt (Packet.AsyncAck p.cmd), .runHandler p]
  else [.runHandler p]

/-- The worker thread calls `_HandlePacket` once per decoded packet, in
stream order; the observable action trace of a packet sequence is the
concatenation of the per-packet traces. -/
def processPackets (ps : List Packet) : List WireAction :=
  ps.flatMap handlePacketTrace

/-- Python exception classes the event decoder and gateway glue can raise. -/
inductive PyError where
  | attributeErr (name : String)
  | typeErr
  | indexErr
  | structErr
  deriving DecidableEq

/-- Values a Python attribute read can produce (only the shapes the claims
inspect). -/
inductive PyVal where
  | str (s : String)
  | int (z : Int)
  | bool (b : Bool)
  deriving DecidableEq

/-- Keyword arguments accepted by `SensorEvent.__init__` (wyzesense.py line
294): `self.__dict__.update(kwargs)` — a field is an instance attribute iff
the corresponding option is `some`. -/
structure EventKw where
  sensor_type : Option String
  battery : Option Nat
  signal_strength : Option Int
  state : Option String
  temperature : Option String
  humidity : Option Nat
  probe_state : Option String
  probe_available : Option Bool
  raw : Option String
  deriving DecidableEq

/-- The empty keyword dictionary. -/
def EventKw.nil : EventKw := ⟨none, none, none, none, none, none, none, none, none⟩

/-- Instance-attribute dictionary of a decoded `SensorEvent` (wyzesense.py
line 293).  `event`, `mac` and `timestamp` are always set; the rest mirror
the kwargs the parser passed.  The timestamp is kept in integer
milliseconds (Python stores `unpack(">Q") / 1000.0` or `time.time()`). -/
structure SensorEvent where
  event : String
  mac : String
  timestamp : Nat
  sensor_type : Option String
  battery : Option Nat
  signal_strength : Option Int
  state : Option String
  temperature : Option String
  humidity : Option Nat
  probe_state : Option String
  probe_available : Option Bool
  raw : Option String
  deriving DecidableEq

/-- Embeds `SensorEvent.__init__` (wyzesense.py lines 294-311): store the
kwargs; if a battery was given, double it for the `switchv2` sensor type and
clamp to 100; negate a given signal strength; then set `event`, `mac`,
`timestamp`.  (When `battery` is passed, every call site also passes
`sensor_type`, which the doubling test reads.) -/
def SensorEvent.init (event mac : String) (timestamp : Nat) (kw : EventKw) : SensorEvent :=
  { event := event
    mac := mac
    timestamp := timestamp
    sensor_type := kw.sensor_type
    battery := kw.battery.map (fun b =>
      min (if kw.sensor_type = some "switchv2" then b * 2 else b) 100)
    signal_strength := kw.signal_strength.map (fun z => -z)
    state := kw.state
    temperature := kw.temperature
    humidity := kw.humidity
    probe_state := kw.probe_state
    probe_available := kw.probe_available
    raw := kw.raw }

/-- Embeds Python attribute lookup on a `SensorEvent` instance: the names
set by `__init__` (all lowercase) are the only attributes; any other name —
in particular `MAC`, `Timestamp`, `Type`, `Data` — raises `AttributeError`
(modelled as `none`). -/
def SensorEvent.getattr (e : SensorEvent) (name : String) : Option PyVal :=
  if name = "event" then some (.str e.event)
  else if name = "mac" then some (.str e.mac)
  else if name = "timestamp" then some (.int e.timestamp)
  else if name = "sensor_type" then e.sensor_type.map .str
  else if name = "battery" then (e.battery.map (fun b => .int b))
  else if name = "signal_strength" then e.signal_strength.map .int
  else if name = "state" then e.state.map .str
  else if name = "temperature" then e.temperature.map .str
  else if name = "humidity" then (e.humidity.map (fun h => .int h))
  else if name = "probe_state" then e.probe_state.map .str
  else if name = "probe_available" then e.probe_available.map .bool
  else if name = "raw" then e.raw.map .str
  else none

/-- Embeds `SENSOR_TYPES` (wyzesense.py lines 46-54). -/
def SENSOR_TYPES : List (Nat × String) :=
  [(0x01, "switch"), (0x0E, "switchv2"), (0x02, "motion"), (0x0F, "motionv2"),
   (0x03, "leak"), (0x07, "climate"), (0x0C, "chime")]

/-- Embeds `BINARY_SENSOR_STATES` (wyzesense.py lines 56-62). -/
def BINARY_SENSOR_STATES : List (Nat × (String × String)) :=
  [(0x01, ("closed", "open")), (0x0E, ("closed", "open")),
   (0x02, ("inactive", "active")), (0x0F, ("inactive", "active")),
   (0x03, ("dry", "wet"))]

/-- Python tuple indexing `pair[i]` on a 2-tuple: `IndexError` beyond 1. -/
def pairIndex (p : String × String) (i : Nat) : Except PyError String :=
  if i = 0 then .ok p.1
  else if i = 1 then .ok p.2
  else .error .indexErr

/-- Embeds `SensorEvent._UnknownParser` (wyzesense.py lines 378-380): an
event of kind `unknown:<hex of the event byte>` carrying the payload
rendered by `bytes_to_hex`.  Its parameter list is
`(mac, event, sensor_type, timestamp, data)`; `sensor_type` is unused. -/
def SensorEvent.parseUnknown (mac : String) (event : Nat) (_sensor_type : Nat)
    (timestamp : Nat) (data : List Nat) : Except PyError SensorEvent :=
  .ok (SensorEvent.init ("unknown:" ++ hex2Upper event) mac timestamp
    { EventKw.nil with raw := some (bytes_to_hex data) })

/-- Embeds `SensorEvent._AlarmParser` (wyzesense.py lines 316-331): unpack
`>BBBBBHB` from the payload remainder, reject unknown / non-binary sensor
types, and build an `alarm` event.  `struct.error` fires when fewer than 8
bytes remain.  In both rejection branches the source runs
`return cls._UnknownParser(mac, event, timestamp, data)`, but
`_UnknownParser` takes five positional arguments
`(mac, event, sensor_type, timestamp, data)`, so the four-argument call
raises `TypeError: missing required positional argument` instead of
returning the `unknown:<hex>` event — modelled as `.error .typeErr`. -/
def SensorEvent.parseAlarm (mac : String) (_event sensor_type : Nat)
    (timestamp : Nat) (data : List Nat) : Except PyError SensorEvent :=
  match data with
  | _b0 :: battery :: _b2 :: _b3 :: state :: _seqHi :: _seqLo :: signal :: _rest =>
    match SENSOR_TYPES.lookup sensor_type with
    | none => .error .typeErr
    | some tname =>
      match BINARY_SENSOR_STATES.lookup sensor_type with
      | none => .error .typeErr
      | some states =>
        (pairIndex states state).map (fun st =>
          SensorEvent.init "alarm" mac timestamp
            { EventKw.nil with
                sensor_type := some tname
                battery := some battery
                signal_strength := some (Int.ofNat signal)
                state := some st })
  | _ => .error .structErr

/-- Embeds `SensorEvent._HeartbeatParser` (wyzesense.py lines 333-343): same
layout as the alarm frame, only the known-sensor-type check, and a `status`
event without a state; the unknown-type branch hits the same four-argument
`_UnknownParser` call and raises `TypeError`. -/
def SensorEvent.parseHeartbeat (mac : String) (_event sensor_type : Nat)
    (timestamp : Nat) (data : List Nat) : Except PyError SensorEvent :=
  match data with
  | _b0 :: battery :: _b2 :: _b3 :: _state :: _seqHi :: _seqLo :: signal :: _rest =>
    match SENSOR_TYPES.lookup sensor_type with
    | none => .error .typeErr
    | some tname =>
      .ok (SensorEvent.init "status" mac timestamp
        { EventKw.nil with
            sensor_type := some tname
            battery := some battery
            signal_strength := some (Int.ofNat signal) })
  | _ => .error .structErr

/-- Per-sensor configuration fields of `SENSORS[mac]`
(wyzesense2mqtt.py) that the availability loop reads: an optional explicit
`timeout` (seconds) and an optional firmware `sw_version`. -/
structure SensorCfg where
  timeout : Option Int
  sw_version : Option Int
  deriving DecidableEq

/-- Per-sensor availability state `SENSORS_STATE[mac]`
(wyzesense2mqtt.py): last-seen wall-clock seconds and the online flag. -/
structure SensorSt where
  last_seen : Int
  online : Bool
  deriving DecidableEq

def V1_SW : List Int := [19]
def V2_SW : List Int := [23]
def DEFAULT_V1_TIMEOUT_HOURS : Int := 8
def DEFAULT_V2_TIMEOUT_HOURS : Int := 4

/-- Embeds the timeout selection of the availability loop
(wyzesense2mqtt.py lines 982-987): the explicit `timeout` field if set, else
the V2 default when `sw_version` is set and listed in `V2_SW`, else the V1
default. -/
def availabilityTimeout (cfg : SensorCfg) : Int :=
  match cfg.timeout with
  | some t => t
  | none =>
    match cfg.sw_version with
    | some v =>
      if v ∈ V2_SW then DEFAULT_V2_TIMEOUT_HOURS * 60 * 60
      else DEFAULT_V1_TIMEOUT_HOURS * 60 * 60
    | none => DEFAULT_V1_TIMEOUT_HOURS * 60 * 60

/-- Embeds one availability-loop iteration for one registry entry
(wyzesense2mqtt.py lines 976-992): entries marked online whose
`now - last_seen` exceeds the timeout are flipped offline; the `Bool`
records whether the offline status notification was published. -/
def availabilityTick (now : Int) (cfg : SensorCfg) (st : SensorSt) : SensorSt × Bool :=
  if st.online then
    if now - st.last_seen > availabilityTimeout cfg then (⟨st.last_seen, false⟩, true)
    else (st, false)
  else (st, false)

/-- Embeds `on_event` (wyzesense2mqtt.py lines 741-798) far enough to settle
the claims: after the initialisation gate (the comparison
`event == "ERROR"` of an object with a string is `False` and is skipped),
the handler's first event access is `event.MAC` (line 751), followed by
`event.Timestamp` (line 768) and `event.Type` (line 784).  A decoded
`SensorEvent` carries none of these capitalised attributes, so the first
lookup raises `AttributeError`.  The `.ok` leg models the availability
update the code would perform (`online := True`); it is unreachable for any
event the decoder can produce. -/
def on_event (inited : Bool) (st : SensorSt) (e : SensorEvent) : Except PyError SensorSt :=
  if inited = false then .ok st
  else
    match e.getattr "MAC" with
    | none => .error (.attributeErr "MAC")
    | some _ =>
      match e.getattr "Timestamp" with
      | none => .error (.attributeErr "Timestamp")
      | some _ =>
        match e.getattr "Type" with
        | none => .error (.attributeErr "Type")
        | some _ => .ok ⟨st.last_seen, true⟩

/-- Embeds `Packet.DelAllSensor` (wyzesense.py lines 243-245): the body is
`return cls(cls.CMD_DEL_ALL_SENSOR)` — the attribute name lacks the final
`S` of the defined constant `CMD_DEL_ALL_SENSORS`, so the class-attribute
lookup fails before any packet is built. -/
def Packet.DelAllSensor : Except PyError Packet :=
  match Packet.getClassAttr "CMD_DEL_ALL_SENSOR" with
  | none => .error (.attributeErr "CMD_DEL_ALL_SENSOR")
  | some c => .ok ⟨c, .data []⟩

/-- Embeds `Dongle.DeleteAll` (wyzesense.py lines 747-752) up to the dongle
write inside `_DoSimpleCommand`: the bytes that would reach `os.write`, or
the exception raised before anything is sent. -/
def Dongle.DeleteAll : Except PyError (List Nat) := do
  let p ← Packet.DelAllSensor
  match p.Send with
  | some bs => .ok bs
  | none => .error .structErr

/-- Helper: the exact byte string `Packet.Send` emits for a well-formed
data-payload packet. -/
theorem send_data_eq (p : Packet) (bs : List Nat) (hp : p.payload = .data bs)
    (hcmd : p.cmd < 65536) (hne : p.cmd ≠ Packet.ASYNC_ACK)
    (hlen : bs.length + 3 ≤ 255) (hb : ∀ b ∈ bs, b < 256) :
    Packet.Send p = some
      ((0xAA :: 0x55 :: p.cmd / 256 :: (bs.length + 3) :: p.cmd % 256 :: bs) ++
        [checksum_from_bytes (0xAA :: 0x55 :: p.cmd / 256 :: (bs.length + 3) :: p.cmd % 256 :: bs) / 256,
         checksum_from_bytes (0xAA :: 0x55 :: p.cmd / 256 :: (bs.length + 3) :: p.cmd % 256 :: bs) % 256]) := by
  have h1 : ¬ (p.cmd / 256 ≥ 256) := by omega
  simp only [Packet.Send, hp, if_neg h1, if_neg hne, if_pos (And.intro hlen hb), Option.map_some]
  rfl

/-- Helper: the exact byte string `Packet.Send` emits for an `ASYNC_ACK`. -/
theorem send_ack_eq (p : Packet) (c : Nat) (hp : p.payload = .ackCmd c)
    (hcmd : p.cmd = Packet.ASYNC_ACK) :
    Packet.Send p = some
      ([0xAA, 0x55, 0x53, c % 256, 0xFF] ++
        [checksum_from_bytes [0xAA, 0x55, 0x53, c % 256, 0xFF] / 256,
         checksum_from_bytes [0xAA, 0x55, 0x53, c % 256, 0xFF] % 256]) := by
  have h0 : Packet.ASYNC_ACK / 256 = 0x53 := by decide
  have h255 : Packet.ASYNC_ACK % 256 = 0xFF := by decide
  have h1 : ¬ (p.cmd / 256 ≥ 256) := by rw [hcmd, h0]; omega
  simp only [Packet.Send, hp, hcmd, if_neg h1, if_pos rfl, h0, h255, Option.map_some]
  rfl

/-- Helper: `Packet.Parse` decodes a well-formed data frame at the head of
the buffer (either magic byte order), ignoring any trailing bytes. -/
theorem parse_data_frame (m0 m1 cmd : Nat) (bs g2 : List Nat)
    (hm : m0 * 256 + m1 = 0x55AA ∨ m0 * 256 + m1 = 0xAA55)
    (hne : cmd ≠ Packet.ASYNC_ACK) :
    Packet.Parse (m0 :: m1 :: cmd / 256 :: (bs.length + 3) :: cmd % 256 ::
        (bs ++ checksum_from_bytes (m0 :: m1 :: cmd / 256 :: (bs.length + 3) :: cmd % 256 :: bs) / 256 ::
              checksum_from_bytes (m0 :: m1 :: cmd / 256 :: (bs.length + 3) :: cmd % 256 :: bs) % 256 :: g2))
      = Except.ok (some ⟨cmd, .data bs⟩) := by
  set cs := checksum_from_bytes (m0 :: m1 :: cmd / 256 :: (bs.length + 3) :: cmd % 256 :: bs) with hcs
  have hmk : MAKE_CMD (cmd / 256) (cmd % 256) = cmd := by unfold MAKE_CMD; omega
  have hmagic : ¬ (m0 * 256 + m1 ≠ 0x55AA ∧ m0 * 256 + m1 ≠ 0xAA55) := by
    rcases hm with h | h <;> simp [h]
  have hlen : (bs.length + 3) + 4 ≤ 5 + (bs ++ cs / 256 :: cs % 256 :: g2).length := by
    simp [List.length_append]
    omega
  simp only [Packet.Parse, if_neg hmagic, hmk, if_neg hne, if_pos hlen]
  have hsplit : (m0 :: m1 :: cmd / 256 :: (bs.length + 3) :: cmd % 256 ::
      (bs ++ cs / 256 :: cs % 256 :: g2)) =
      ((m0 :: m1 :: cmd / 256 :: (bs.length + 3) :: cmd % 256 :: bs) ++ [cs / 256, cs % 256]) ++ g2 := by
    simp
  have htake : ((m0 :: m1 :: cmd / 256 :: (bs.length + 3) :: cmd % 256 ::
      (bs ++ cs / 256 :: cs % 256 :: g2))).take (bs.length + 3 + 4) =
      (m0 :: m1 :: cmd / 256 :: (bs.length + 3) :: cmd % 256 :: bs) ++ [cs / 256, cs % 256] := by
    rw [hsplit]
    exact List.take_left' (by simp)
  rw [htake]
  have hlen2 : ((m0 :: m1 :: cmd / 256 :: (bs.length + 3) :: cmd % 256 :: bs) ++
      [cs / 256, cs % 256]).length - 2 = (m0 :: m1 :: cmd / 256 :: (bs.length + 3) :: cmd % 256 :: bs).length := by
    simp
  rw [hlen2, List.take_left, List.drop_left]
  have hfold : [cs / 256, cs % 256].foldl (fun a b => a * 256 + b) 0 = cs := by
    simp only [List.foldl]
    omega
  rw [hfold, if_neg (by exact fun h => h rfl)]
  simp

/-- Helper: `Packet.Parse` decodes a well-formed 7-byte `ASYNC_ACK` frame at
the head of the buffer (either magic byte order), ignoring trailing bytes. -/
theorem parse_ack_frame (m0 m1 c : Nat) (g2 : List Nat)
    (hm : m0 * 256 + m1 = 0x55AA ∨ m0 * 256 + m1 = 0xAA55)
    (hc : c / 256 = TYPE_ASYNC) :
    Packet.Parse (m0 :: m1 :: 0x53 :: c % 256 :: 0xFF ::
        (checksum_from_bytes [m0, m1, 0x53, c % 256, 0xFF] / 256 ::
         checksum_from_bytes [m0, m1, 0x53, c % 256, 0xFF] % 256 :: g2))
      = Except.ok (some ⟨Packet.ASYNC_ACK, .ackCmd c⟩) := by
  set cs := checksum_from_bytes [m0, m1, 0x53, c % 256, 0xFF] with hcs
  have hmagic : ¬ (m0 * 256 + m1 ≠ 0x55AA ∧ m0 * 256 + m1 ≠ 0xAA55) := by
    rcases hm with h | h <;> simp [h]
  have hmk : MAKE_CMD 0x53 0xFF = Packet.ASYNC_ACK := by decide
  have hpay : MAKE_CMD 0x53 (c % 256) = c := by
    unfold TYPE_ASYNC at hc
    unfold MAKE_CMD
    omega
  simp only [Packet.Parse, if_neg hmagic, hmk]
  rw [if_true, ← hcs]
  have hck : cs / 256 * 256 + cs % 256 = cs := by omega
  rw [hck, if_neg (by exact fun h => h rfl), hpay]

/-- Helper: introduction rule for `wfPacket` on a data-payload packet. -/
theorem wfPacket_mk_data (cmd : Nat) (bs : List Nat) (h1 : cmd < 65536)
    (h2 : cmd ≠ Packet.ASYNC_ACK) (h3 : bs.length + 3 ≤ 255)
    (h4 : ∀ b ∈ bs, b < 256) : wfPacket ⟨cmd, .data bs⟩ :=
  ⟨h1, h2, h3, h4⟩

/-- Helper: introduction rule for `wfPacket` on an `ASYNC_ACK` packet. -/
theorem wfPacket_mk_ack (c : Nat) (h : c / 256 = TYPE_ASYNC) :
    wfPacket ⟨Packet.ASYNC_ACK, .ackCmd c⟩ :=
  ⟨show Packet.ASYNC_ACK < 65536 by decide, rfl, h⟩

/-- Helper: every factory-built packet is well formed. -/
theorem wf_of_constructorBuilt (p : Packet) (h : ConstructorBuilt p) : wfPacket p := by
  cases h with
  | getVersion => exact wfPacket_mk_data Packet.CMD_GET_DONGLE_VERSION [] (by decide) (by decide) (by decide) (by decide)
  | inquiry => exact wfPacket_mk_data Packet.CMD_INQUIRY [] (by decide) (by decide) (by decide) (by decide)
  | getEnr r hr hb =>
    exact wfPacket_mk_data Packet.CMD_GET_ENR r (by decide) (by decide) (by omega) hb
  | getMAC => exact wfPacket_mk_data Packet.CMD_GET_MAC [] (by decide) (by decide) (by decide) (by decide)
  | getKey => exact wfPacket_mk_data Packet.CMD_GET_KEY [] (by decide) (by decide) (by decide) (by decide)
  | enableScan => exact wfPacket_mk_data Packet.CMD_START_STOP_SCAN [0x01] (by decide) (by decide) (by decide) (by decide)
  | disableScan => exact wfPacket_mk_data Packet.CMD_START_STOP_SCAN [0x00] (by decide) (by decide) (by decide) (by decide)
  | getSensorCount => exact wfPacket_mk_data Packet.CMD_GET_SENSOR_COUNT [] (by decide) (by decide) (by decide) (by decide)
  | getSensorList count hc =>
    refine wfPacket_mk_data Packet.CMD_GET_SENSOR_LIST [count] (by decide) (by decide) (by simp) ?_
    intro b hb
    simp at hb
    omega
  | finishAuth => exact wfPacket_mk_data Packet.CMD_FINISH_AUTH [0xFF] (by decide) (by decide) (by decide) (by decide)
  | delSensor mac hm hb =>
    exact wfPacket_mk_data Packet.CMD_DEL_SENSOR mac (by decide) (by decide) (by omega)
      (fun b hbb => Nat.lt_of_lt_of_le (hb b hbb) (by omega))
  | getSensorR1 mac r hm hmb hr hrb =>
    refine wfPacket_mk_data Packet.CMD_GET_SENSOR_R1 (mac ++ r) (by decide) (by decide)
      (by simp [List.length_append]; omega) ?_
    intro b hb
    rcases List.mem_append.mp hb with h1 | h2
    · exact Nat.lt_of_lt_of_le (hmb b h1) (by omega)
    · exact hrb b h2
  | verifySensor mac hm hb =>
    refine wfPacket_mk_data Packet.CMD_VERIFY_SENSOR (mac ++ [0xFF, 0x04]) (by decide) (by decide)
      (by simp [List.length_append]; omega) ?_
    intro b hbb
    rcases List.mem_append.mp hbb with h1 | h2
    · exact Nat.lt_of_lt_of_le (hb b h1) (by omega)
    · simp at h2
      omega
  | updateCC1310 => exact wfPacket_mk_data Packet.CMD_UPDATE_CC1310 [] (by decide) (by decide) (by decide) (by decide)
  | ch554Upgrade => exact wfPacket_mk_data Packet.CMD_SET_CH554_UPGRADE [] (by decide) (by decide) (by decide) (by decide)
  | playChime mac ringid repeatCnt volume hm hmb hr hrep =>
    refine wfPacket_mk_data Packet.CMD_PLAY_CHIME (mac ++ [ringid, repeatCnt, min (max volume 1) 9])
      (by decide) (by decide) (by simp [List.length_append]; omega) ?_
    intro b hbb
    rcases List.mem_append.mp hbb with h1 | h2
    · exact Nat.lt_of_lt_of_le (hmb b h1) (by omega)
    · simp at h2
      rcases h2 with h2 | h2 | h2 <;> omega
  | syncTimeAck ms =>
    refine wfPacket_mk_data (Packet.NOTIFY_SYNC_TIME + 1) (packQ ms) (by decide) (by decide)
      (by simp [packQ]) ?_
    intro b hbb
    simp [packQ] at hbb
    rcases hbb with h | h | h | h | h | h | h | h <;> omega
  | asyncAck cmd hc =>
    exact wfPacket_mk_ack cmd hc

/-- Helper: a well-formed packet serialises, its frame has exactly
`p.Length` bytes, and `Packet.Parse` recovers it from the frame followed by
any trailing bytes. -/
theorem send_parse (p : Packet) (h : wfPacket p) (g2 : List Nat) :
    ∃ f, Packet.Send p = some f ∧ f.length = p.Length ∧
      Packet.Parse (f ++ g2) = Except.ok (some p) := by
  obtain ⟨hcmd, hpay⟩ := h
  cases hp : p.payload with
  | data bs =>
    rw [hp] at hpay
    obtain ⟨hne, hlen, hb⟩ := hpay
    refine ⟨_, send_data_eq p bs hp hcmd hne hlen hb, ?_, ?_⟩
    · simp [Packet.Length, if_neg hne, hp]
    · have := parse_data_frame (0xAA) (0x55) p.cmd bs g2 (Or.inr (by norm_num)) hne
      have hshape : ((0xAA :: 0x55 :: p.cmd / 256 :: (bs.length + 3) :: p.cmd % 256 :: bs) ++
          [checksum_from_bytes (0xAA :: 0x55 :: p.cmd / 256 :: (bs.length + 3) :: p.cmd % 256 :: bs) / 256,
           checksum_from_bytes (0xAA :: 0x55 :: p.cmd / 256 :: (bs.length + 3) :: p.cmd % 256 :: bs) % 256]) ++ g2 =
          (0xAA :: 0x55 :: p.cmd / 256 :: (bs.length + 3) :: p.cmd % 256 ::
            (bs ++ checksum_from_bytes (0xAA :: 0x55 :: p.cmd / 256 :: (bs.length + 3) :: p.cmd % 256 :: bs) / 256 ::
                  checksum_from_bytes (0xAA :: 0x55 :: p.cmd / 256 :: (bs.length + 3) :: p.cmd % 256 :: bs) % 256 :: g2)) := by
        simp
      rw [hshape, this]
      have : p = ⟨p.cmd, .data bs⟩ := by cases p; simp_all
      rw [← this]
  | ackCmd c =>
    rw [hp] at hpay
    obtain ⟨hcc, hc⟩ := hpay
    refine ⟨_, send_ack_eq p c hp hcc, ?_, ?_⟩
    · simp [Packet.Length, hcc]
    · have := parse_ack_frame (0xAA) (0x55) c g2 (Or.inr (by norm_num)) hc
      have hshape : ([0xAA, 0x55, 0x53, c % 256, 0xFF] ++
          [checksum_from_bytes [0xAA, 0x55, 0x53, c % 256, 0xFF] / 256,
           checksum_from_bytes [0xAA, 0x55, 0x53, c % 256, 0xFF] % 256]) ++ g2 =
          (0xAA :: 0x55 :: 0x53 :: c % 256 :: 0xFF ::
            (checksum_from_bytes [0xAA, 0x55, 0x53, c % 256, 0xFF] / 256 ::
             checksum_from_bytes [0xAA, 0x55, 0x53, c % 256, 0xFF] % 256 :: g2)) := by
        simp
      rw [hshape, this]
      have : p = ⟨Packet.ASYNC_ACK, .ackCmd c⟩ := by cases p; simp_all
      rw [← this]

/-- Helper: the frame checksum is a byte sum, so it is invariant under
swapping the two magic bytes. -/
theorem checksum_swap (a b : Nat) (l : List Nat) :
    checksum_from_bytes (a :: b :: l) = checksum_from_bytes (b :: a :: l) := by
  simp [checksum_from_bytes, List.sum_cons]
  omega

/-- Helper: a well-formed packet's ingress-order frame (magic `55 AA`) also
has `p.Length` bytes, starts with the magic the worker scans for, and
decodes to `p` with any trailing bytes present. -/
theorem ingress_parse (p : Packet) (h : wfPacket p) (g2 : List Nat) :
    ∃ f t, ingressFrame p = some f ∧ f = 0x55 :: 0xAA :: t ∧ f.length = p.Length ∧
      Packet.Parse (f ++ g2) = Except.ok (some p) := by
  obtain ⟨hcmd, hpay⟩ := h
  cases hp : p.payload with
  | data bs =>
    rw [hp] at hpay
    obtain ⟨hne, hlen, hb⟩ := hpay
    have hsend := send_data_eq p bs hp hcmd hne hlen hb
    have hing : ingressFrame p = some ((0x55 :: 0xAA :: p.cmd / 256 :: (bs.length + 3) :: p.cmd % 256 :: bs) ++
        [checksum_from_bytes (0x55 :: 0xAA :: p.cmd / 256 :: (bs.length + 3) :: p.cmd % 256 :: bs) / 256,
         checksum_from_bytes (0x55 :: 0xAA :: p.cmd / 256 :: (bs.length + 3) :: p.cmd % 256 :: bs) % 256]) := by
      rw [ingressFrame, hsend]
      rw [checksum_swap 0x55 0xAA]
      simp
    refine ⟨_, _, hing, rfl, ?_, ?_⟩
    · have hL : p.Length = bs.length + 7 := by simp [Packet.Length, if_neg hne, hp]
      simp [hL]
    · have hparse := parse_data_frame (0x55) (0xAA) p.cmd bs g2 (Or.inl (by norm_num)) hne
      have hshape : ((0x55 :: 0xAA :: p.cmd / 256 :: (bs.length + 3) :: p.cmd % 256 :: bs) ++
          [checksum_from_bytes (0x55 :: 0xAA :: p.cmd / 256 :: (bs.length + 3) :: p.cmd % 256 :: bs) / 256,
           checksum_from_bytes (0x55 :: 0xAA :: p.cmd / 256 :: (bs.length + 3) :: p.cmd % 256 :: bs) % 256]) ++ g2 =
          0x55 :: 0xAA :: p.cmd / 256 :: (bs.length + 3) :: p.cmd % 256 ::
          (bs ++ checksum_from_bytes (0x55 :: 0xAA :: p.cmd / 256 :: (bs.length + 3) :: p.cmd % 256 :: bs) / 256 ::
                checksum_from_bytes (0x55 :: 0xAA :: p.cmd / 256 :: (bs.length + 3) :: p.cmd % 256 :: bs) % 256 :: g2) := by
        simp
      rw [hshape, hparse]
      have hpp : p = ⟨p.cmd, .data bs⟩ := by cases p; simp_all
      rw [← hpp]
  | ackCmd c =>
    rw [hp] at hpay
    obtain ⟨hcc, hc⟩ := hpay
    have hsend := send_ack_eq p c hp hcc
    have hing : ingressFrame p = some ([0x55, 0xAA, 0x53, c % 256, 0xFF] ++
        [checksum_from_bytes [0x55, 0xAA, 0x53, c % 256, 0xFF] / 256,
         checksum_from_bytes [0x55, 0xAA, 0x53, c % 256, 0xFF] % 256]) := by
      rw [ingressFrame, hsend]
      rw [checksum_swap 0x55 0xAA]
      simp
    refine ⟨_, _, hing, rfl, ?_, ?_⟩
    · simp [Packet.Length, hcc]
    · have hparse := parse_ack_frame (0x55) (0xAA) c g2 (Or.inl (by norm_num)) hc
      have hshape : (([0x55, 0xAA, 0x53, c % 256, 0xFF] : List Nat) ++
          [checksum_from_bytes [0x55, 0xAA, 0x53, c % 256, 0xFF] / 256,
           checksum_from_bytes [0x55, 0xAA, 0x53, c % 256, 0xFF] % 256]) ++ g2 =
          0x55 :: 0xAA :: 0x53 :: c % 256 :: 0xFF ::
          (checksum_from_bytes [0x55, 0xAA, 0x53, c % 256, 0xFF] / 256 ::
           checksum_from_bytes [0x55, 0xAA, 0x53, c % 256, 0xFF] % 256 :: g2) := by
        simp
      rw [hshape, hparse]
      have hpp : p = ⟨Packet.ASYNC_ACK, .ackCmd c⟩ := by cases p; simp_all
      rw [← hpp]

/-- Helper: when no byte of the leading garbage is `0x55`, the first magic
occurrence in `garbage ++ 0x55 :: 0xAA :: t` is exactly at the frame start. -/
theorem findMagicIdx_frame_start (g1 : List Nat) (t : List Nat)
    (hg : ∀ b ∈ g1, b ≠ 0x55) :
    findMagicIdx (g1 ++ 0x55 :: 0xAA :: t) = some g1.length := by
  induction g1 with
  | nil => simp [findMagicIdx]
  | cons a g1' ih =>
    have ha : a ≠ 0x55 := hg a (by simp)
    have hg' : ∀ b ∈ g1', b ≠ 0x55 := fun b hb => hg b (by simp [hb])
    obtain ⟨b, t', hbt⟩ : ∃ b t', g1' ++ 0x55 :: 0xAA :: t = b :: t' := by
      cases g1' <;> exact ⟨_, _, rfl⟩
    rw [List.cons_append, hbt]
    show findMagicIdx (a :: b :: t') = _
    rw [findMagicIdx]
    rw [if_neg (fun hcon => ha hcon.1)]
    rw [← hbt, ih hg']
    simp

/-- Helper: if the magic scan finds an offset at which `Packet.Parse`
succeeds, the worker delivers that packet on its next iteration. -/
theorem workerRun_delivers (fuel : Nat) (s : List Nat) (start : Nat) (p : Packet)
    (hfind : findMagicIdx s = some start)
    (hparse : Packet.Parse (s.drop start) = Except.ok (some p)) :
    p ∈ (workerRun (fuel + 1) s).1 := by
  rw [workerRun, hfind]
  simp only [hparse]
  simp

/-- Claim C2 (confirmed): for every packet built by a `Packet` factory
constructor (including `AsyncAck`), decoding the bytes produced by encoding
it yields an equal packet — same 16-bit opcode and payload — and the frame
has exactly `Packet.Length` bytes, the count the worker consumes. -/
theorem c2_frame_round_trip (p : Packet) (h : ConstructorBuilt p) :
    ∃ bs, Packet.Send p = some bs ∧ Packet.Parse bs = Except.ok (some p) ∧
      bs.length = p.Length := by
  obtain ⟨f, hs, hl, hp⟩ := send_parse p (wf_of_constructorBuilt p h) []
  exact ⟨f, hs, by simpa using hp, hl⟩

/-- Witness for C2 at the concrete packet `Packet.AsyncAck 0x5319`. -/
theorem c2_frame_round_trip_witness :
    ∃ bs, Packet.Send (Packet.AsyncAck 0x5319) = some bs ∧
      Packet.Parse bs = Except.ok (some (Packet.AsyncAck 0x5319)) ∧
      bs.length = (Packet.AsyncAck 0x5319).Length :=
  c2_frame_round_trip _ (ConstructorBuilt.asyncAck 0x5319 (by decide))

/-- Counterexample to C3 as stated: the serialised `Inquiry` frame begins
`AA 55`, not `55 AA` — `struct.pack(">HB", 0xAA55, ...)` emits `0xAA` first,
so no egress frame starts with `0x55, 0xAA`. -/
theorem c3_egress_magic_counterexample :
    Packet.Send ⟨Packet.CMD_INQUIRY, .data []⟩ =
      some [0xAA, 0x55, 0x43, 0x03, 0x27, 0x01, 0x6C] ∧
    ¬ ∃ rest, Packet.Send ⟨Packet.CMD_INQUIRY, .data []⟩ = some (0x55 :: 0xAA :: rest) := by
  have h1 : Packet.Send ⟨Packet.CMD_INQUIRY, .data []⟩ =
      some [0xAA, 0x55, 0x43, 0x03, 0x27, 0x01, 0x6C] := rfl
  refine ⟨h1, ?_⟩
  rintro ⟨rest, hr⟩
  rw [h1] at hr
  simp at hr

/-- Claim C3 (amended): every non-ACK constructor-built packet serialises as
exactly `0xAA, 0x55` (not `0x55, 0xAA`), the class byte, a length byte equal
to `len(payload) + 3`, the subcode byte, the payload, then the big-endian
16-bit checksum equal to the unsigned sum of all preceding bytes mod 2^16. -/
theorem c3_egress_frame_layout (p : Packet) (bs : List Nat)
    (h : ConstructorBuilt p) (hp : p.payload = .data bs) :
    Packet.Send p = some
      ((0xAA :: 0x55 :: p.cmd / 256 :: (bs.length + 3) :: p.cmd % 256 :: bs) ++
       [(0xAA :: 0x55 :: p.cmd / 256 :: (bs.length + 3) :: p.cmd % 256 :: bs).sum % 2 ^ 16 / 256,
        (0xAA :: 0x55 :: p.cmd / 256 :: (bs.length + 3) :: p.cmd % 256 :: bs).sum % 2 ^ 16 % 256]) := by
  obtain ⟨hcmd, hpay⟩ := wf_of_constructorBuilt p h
  rw [hp] at hpay
  obtain ⟨hne, hlen, hb⟩ := hpay
  have hs := send_data_eq p bs hp hcmd hne hlen hb
  have h16 : (2 : Nat) ^ 16 = 65536 := by norm_num
  rw [h16]
  exact hs

/-- Witness for C3's amended claim at the concrete packet `GetMAC`. -/
theorem c3_egress_frame_layout_witness :
    Packet.Send ⟨Packet.CMD_GET_MAC, .data []⟩ = some [0xAA, 0x55, 0x43, 0x03, 0x04, 0x01, 0x49] := by
  have h := c3_egress_frame_layout ⟨Packet.CMD_GET_MAC, .data []⟩ [] ConstructorBuilt.getMAC rfl
  rw [h]
  rfl

/-- Counterexample to C4 as stated: a 5-byte buffer with valid magic and the
`ASYNC_ACK` opcode makes `Packet.Parse` raise the `AssertionError` of
`assert len(s) >= 7`, which is a different condition from the recoverable
`EOFError` (`NeedMore`) the claim asserts. -/
theorem c4_short_ack_counterexample :
    Packet.Parse [0x55, 0xAA, 0x53, 0x00, 0xFF] = Except.error ParseErr.assertErr ∧
    ParseErr.assertErr ≠ ParseErr.eofErr :=
  ⟨rfl, by decide⟩

/-- Claim C4 (amended): for every buffer that begins with a valid magic,
whose opcode bytes denote `ASYNC_ACK`, and which holds fewer than 7 bytes,
`Packet.Parse` fails with the `AssertionError` of `assert len(s) >= 7` —
not the recoverable `EOFError` — and, since the worker catches only
`EOFError`, the worker thread crashes instead of keeping the partial
buffer. -/
theorem c4_short_ack_assert (m0 m1 cmdType b2 cmdId : Nat) (rest : List Nat) (fuel : Nat)
    (hm : m0 * 256 + m1 = 0x55AA ∨ m0 * 256 + m1 = 0xAA55)
    (hack : MAKE_CMD cmdType cmdId = Packet.ASYNC_ACK)
    (hshort : rest.length < 2) :
    Packet.Parse (m0 :: m1 :: cmdType :: b2 :: cmdId :: rest) = Except.error ParseErr.assertErr ∧
    (m0 = 0x55 → m1 = 0xAA →
      workerRun (fuel + 1) (m0 :: m1 :: cmdType :: b2 :: cmdId :: rest) = ([], WorkerEnd.crashed)) := by
  have hmagic : ¬ (m0 * 256 + m1 ≠ 0x55AA ∧ m0 * 256 + m1 ≠ 0xAA55) := by
    rcases hm with h | h <;> simp [h]
  have hparse : Packet.Parse (m0 :: m1 :: cmdType :: b2 :: cmdId :: rest) =
      Except.error ParseErr.assertErr := by
    cases rest with
    | nil =>
      simp only [Packet.Parse, if_neg hmagic, hack]
      rw [if_true]
    | cons c0 rest' =>
      cases rest' with
      | nil =>
        simp only [Packet.Parse, if_neg hmagic, hack]
        rw [if_true]
      | cons c1 r =>
        exact absurd hshort (by simp)
  refine ⟨hparse, ?_⟩
  intro h0 h1
  subst h0
  subst h1
  have hfind : findMagicIdx (0x55 :: 0xAA :: cmdType :: b2 :: cmdId :: rest) = some 0 := by
    rw [findMagicIdx]
    simp
  rw [workerRun, hfind]
  simp only [List.drop_zero, hparse]

/-- Witness for C4's amended claim at a concrete 5-byte buffer. -/
theorem c4_short_ack_assert_witness :
    Packet.Parse [0x55, 0xAA, 0x53, 0x07, 0xFF] = Except.error ParseErr.assertErr ∧
    workerRun 1 [0x55, 0xAA, 0x53, 0x07, 0xFF] = ([], WorkerEnd.crashed) := by
  have h := c4_short_ack_assert 0x55 0xAA 0x53 0x07 0xFF [] 0
    (Or.inl (by norm_num)) (by decide) (by decide)
  exact ⟨h.1, h.2 rfl rfl⟩

/-- Counterexample to C5 as stated: with empty garbage and `p = GetVersion`,
the byte sequence `encode(p)` starts `AA 55`, the worker's scan for the
magic `55 AA` never matches anywhere in it, and the loop delivers nothing —
it idles awaiting more data. -/
theorem c5_resync_counterexample :
    Packet.Send ⟨Packet.CMD_GET_DONGLE_VERSION, .data []⟩ =
      some [0xAA, 0x55, 0x53, 0x03, 0x16, 0x01, 0x6B] ∧
    findMagicIdx [0xAA, 0x55, 0x53, 0x03, 0x16, 0x01, 0x6B] = none ∧
    workerRun 8 [0xAA, 0x55, 0x53, 0x03, 0x16, 0x01, 0x6B] = ([], WorkerEnd.awaitMore) :=
  ⟨rfl, rfl, rfl⟩

/-- Claim C5 (amended): for every byte sequence
`garbage1 ++ frame ++ garbage2` where `frame` is the constructor-built
packet's frame in the ingress byte order `55 AA` (the order the dongle uses
and the worker scans for) and the leading garbage contains no `0x55` byte,
the worker loop delivers the packet. -/
theorem c5_resync_ingress (p : Packet) (f g1 g2 : List Nat) (fuel : Nat)
    (hcb : ConstructorBuilt p)
    (hf : ingressFrame p = some f)
    (hg1 : ∀ b ∈ g1, b ≠ 0x55) :
    p ∈ (workerRun (fuel + 1) (g1 ++ f ++ g2)).1 := by
  obtain ⟨f', t, hf', hmagicf, _hlen, hparse⟩ :=
    ingress_parse p (wf_of_constructorBuilt p hcb) g2
  rw [hf] at hf'
  have hff : f = f' := Option.some.inj hf'
  subst hff
  have hassoc : g1 ++ f ++ g2 = g1 ++ (f ++ g2) := List.append_assoc g1 f g2
  have hfind : findMagicIdx (g1 ++ f ++ g2) = some g1.length := by
    rw [hassoc, hmagicf]
    have hsplit : (0x55 :: 0xAA :: t) ++ g2 = 0x55 :: 0xAA :: (t ++ g2) := by simp
    rw [hsplit]
    exact findMagicIdx_frame_start g1 (t ++ g2) hg1
  have hdrop : (g1 ++ f ++ g2).drop g1.length = f ++ g2 := by
    rw [hassoc]
    exact List.drop_left g1 (f ++ g2)
  exact workerRun_delivers fuel _ _ p hfind (by rw [hdrop]; exact hparse)

/-- Witness for C5's amended claim: garbage `DE AD`, the `EnableScan` frame
in ingress byte order, trailing garbage `99`. -/
theorem c5_resync_ingress_witness :
    ingressFrame ⟨Packet.CMD_START_STOP_SCAN, .data [0x01]⟩ =
      some [0x55, 0xAA, 0x53, 0x04, 0x1C, 0x01, 0x01, 0x73] ∧
    (⟨Packet.CMD_START_STOP_SCAN, .data [0x01]⟩ : Packet) ∈
      (workerRun 1 ([0xDE, 0xAD] ++ [0x55, 0xAA, 0x53, 0x04, 0x1C, 0x01, 0x01, 0x73] ++ [0x99])).1 := by
  refine ⟨rfl, ?_⟩
  exact c5_resync_ingress _ _ _ _ 0 ConstructorBuilt.enableScan rfl (by decide)

/-- Claim C7 (confirmed): `_HandlePacket` on an async non-ACK packet first
writes `AsyncAck(pkt.Cmd)` — whose wire form carries the packet's subcode in
byte 3 — and only then runs the packet's handler; synchronous-class packets
and received `ASYNC_ACK`s produce no acknowledgement; and the actions of a
packet precede every action of later inbound packets. -/
theorem c7_async_ack_obligation (p : Packet) (ps : List Packet) :
    (p.cmd / 256 = TYPE_ASYNC → p.cmd ≠ Packet.ASYNC_ACK →
      handlePacketTrace p =
        [WireAction.sendPkt (Packet.AsyncAck p.cmd), WireAction.runHandler p] ∧
      (Packet.AsyncAck p.cmd).payload = PktPayload.ackCmd p.cmd ∧
      Packet.Send (Packet.AsyncAck p.cmd) = some
        ([0xAA, 0x55, 0x53, p.cmd % 256, 0xFF] ++
         [checksum_from_bytes [0xAA, 0x55, 0x53, p.cmd % 256, 0xFF] / 256,
          checksum_from_bytes [0xAA, 0x55, 0x53, p.cmd % 256, 0xFF] % 256])) ∧
    (p.cmd / 256 ≠ TYPE_ASYNC → handlePacketTrace p = [WireAction.runHandler p]) ∧
    (p.cmd = Packet.ASYNC_ACK → handlePacketTrace p = [WireAction.runHandler p]) ∧
    processPackets (p :: ps) = handlePacketTrace p ++ processPackets ps := by
  refine ⟨?_, ?_, ?_, ?_⟩
  · intro h1 h2
    refine ⟨?_, rfl, ?_⟩
    · rw [handlePacketTrace, if_pos ⟨h1, h2⟩]
    · exact send_ack_eq (Packet.AsyncAck p.cmd) p.cmd rfl rfl
  · intro h1
    rw [handlePacketTrace, if_neg (fun hcon => h1 hcon.1)]
  · intro h1
    rw [handlePacketTrace, if_neg (fun hcon => hcon.2 h1)]
  · simp [processPackets]

/-- Witness for C7 at concrete packets: the sensor-alarm notification (async,
acked), an `Inquiry` reply-class packet (sync, not acked) and a received
`ASYNC_ACK` (not acked). -/
theorem c7_async_ack_obligation_witness :
    handlePacketTrace ⟨Packet.NOTIFY_SENSOR_ALARM, .data []⟩ =
      [WireAction.sendPkt (Packet.AsyncAck Packet.NOTIFY_SENSOR_ALARM),
       WireAction.runHandler ⟨Packet.NOTIFY_SENSOR_ALARM, .data []⟩] ∧
    handlePacketTrace ⟨Packet.CMD_INQUIRY, .data []⟩ =
      [WireAction.runHandler ⟨Packet.CMD_INQUIRY, .data []⟩] ∧
    handlePacketTrace (Packet.AsyncAck 0x5333) =
      [WireAction.runHandler (Packet.AsyncAck 0x5333)] := by
  refine ⟨?_, ?_, ?_⟩
  · exact ((c7_async_ack_obligation ⟨Packet.NOTIFY_SENSOR_ALARM, .data []⟩ []).1
      (by decide) (by decide)).1
  · exact (c7_async_ack_obligation ⟨Packet.CMD_INQUIRY, .data []⟩ []).2.1 (by decide)
  · exact (c7_async_ack_obligation (Packet.AsyncAck 0x5333) []).2.2.1 (by decide)

/-- Claim C1 (refuted by the code — code bug): the gateway's `on_event` does
not read only fields the event record carries: its first event access is
`event.MAC` (wyzesense2mqtt.py line 751), an attribute no `SensorEvent`
built by wyzesense.py defines (they are the lowercase `mac`, `timestamp`,
`event`, `sensor_type`, `state`, `battery`, `signal_strength`, ...), so
processing any decoded sensor event through `on_event` after initialisation
raises `AttributeError` instead of completing. -/
theorem c1_on_event_missing_attr (st : SensorSt) (e : SensorEvent) :
    e.getattr "MAC" = none ∧
    on_event true st e = Except.error (PyError.attributeErr "MAC") :=
  ⟨rfl, rfl⟩

/-- Claim C6 (refuted by the code — code bug): for an alarm or heartbeat
payload whose sensor-type byte (here `0x05`) is not in `SENSOR_TYPES`, the
decoder does not return an `unknown:<hex>` event: the branch calls
`cls._UnknownParser(mac, event, timestamp, data)` with four arguments while
`_UnknownParser` takes five, so Python raises `TypeError`. -/
theorem c6_unknown_sensor_type_typeerror :
    SENSOR_TYPES.lookup 0x05 = none ∧
    SensorEvent.parseAlarm "12345678" 0xA2 0x05 0 [0x01, 60, 0, 0, 1, 0, 0, 75] =
      Except.error PyError.typeErr ∧
    SensorEvent.parseHeartbeat "12345678" 0xA1 0x05 0 [0x01, 60, 0, 0, 1, 0, 0, 75] =
      Except.error PyError.typeErr :=
  ⟨rfl, rfl, rfl⟩

/-- Claim C8 (confirmed): for every decoded alarm or status event carrying a
raw battery byte, the reported battery is `min(raw * 2, 100)` for the
`switchv2` sensor type and `min(raw, 100)` for every other type — stated
both for `SensorEvent.__init__` (which all parsers call) and for the alarm
and heartbeat parsers on raw payload bytes. -/
theorem c8_battery_normalisation :
    (∀ ev mac ts kw raw tname, kw.battery = some raw → kw.sensor_type = some tname →
      (SensorEvent.init ev mac ts kw).battery =
        some (if tname = "switchv2" then min (raw * 2) 100 else min raw 100)) ∧
    (∀ mac ts b0 battery b2 b3 state s1 s2 signal rest sty tname states,
      SENSOR_TYPES.lookup sty = some tname →
      BINARY_SENSOR_STATES.lookup sty = some states →
      state < 2 →
      ∃ e, SensorEvent.parseAlarm mac 0xA2 sty ts
          (b0 :: battery :: b2 :: b3 :: state :: s1 :: s2 :: signal :: rest) = Except.ok e ∧
        e.battery = some (if tname = "switchv2" then min (battery * 2) 100 else min battery 100)) ∧
    (∀ mac ts b0 battery b2 b3 state s1 s2 signal rest sty tname,
      SENSOR_TYPES.lookup sty = some tname →
      ∃ e, SensorEvent.parseHeartbeat mac 0xA1 sty ts
          (b0 :: battery :: b2 :: b3 :: state :: s1 :: s2 :: signal :: rest) = Except.ok e ∧
        e.battery = some (if tname = "switchv2" then min (battery * 2) 100 else min battery 100)) := by
  have hinit : ∀ ev mac ts kw raw tname, kw.battery = some raw → kw.sensor_type = some tname →
      (SensorEvent.init ev mac ts kw).battery =
        some (if tname = "switchv2" then min (raw * 2) 100 else min raw 100) := by
    intro ev mac ts kw raw tname hb hst
    simp only [SensorEvent.init, hb, hst, Option.map_some]
    by_cases hc : tname = "switchv2" <;> simp [hc]
  refine ⟨hinit, ?_, ?_⟩
  · intro mac ts b0 battery b2 b3 state s1 s2 signal rest sty tname states h1 h2 hstate
    have hst : state = 0 ∨ state = 1 := by omega
    have hex : ∀ stv, pairIndex states state = Except.ok stv →
        SensorEvent.parseAlarm mac 0xA2 sty ts
          (b0 :: battery :: b2 :: b3 :: state :: s1 :: s2 :: signal :: rest) =
        Except.ok (SensorEvent.init "alarm" mac ts
          { EventKw.nil with
              sensor_type := some tname
              battery := some battery
              signal_strength := some (Int.ofNat signal)
              state := some stv }) := by
      intro stv hpair
      simp only [SensorEvent.parseAlarm, h1, h2, hpair, Except.map]
    rcases hst with h | h
    · subst h
      exact ⟨_, hex states.1 rfl,
        hinit "alarm" mac ts
          { EventKw.nil with
              sensor_type := some tname
              battery := some battery
              signal_strength := some (Int.ofNat signal)
              state := some states.1 } battery tname rfl rfl⟩
    · subst h
      exact ⟨_, hex states.2 rfl,
        hinit "alarm" mac ts
          { EventKw.nil with
              sensor_type := some tname
              battery := some battery
              signal_strength := some (Int.ofNat signal)
              state := some states.2 } battery tname rfl rfl⟩
  · intro mac ts b0 battery b2 b3 state s1 s2 signal rest sty tname h1
    refine ⟨_, ?_, hinit "status" mac ts
      { EventKw.nil with
          sensor_type := some tname
          battery := some battery
          signal_strength := some (Int.ofNat signal) } battery tname rfl rfl⟩
    simp only [SensorEvent.parseHeartbeat, h1]

/-- Witness for C8 at the spec's S4 scenario: switch-v2 alarm, raw battery
60, reported battery 100. -/
theorem c8_battery_normalisation_witness :
    ∃ e, SensorEvent.parseAlarm "776A5CE1" 0xA2 0x0E 1700000000000
        [0x01, 60, 0x00, 0x00, 1, 0x00, 0x00, 75] = Except.ok e ∧
      e.battery = some 100 := by
  obtain ⟨e, h1, h2⟩ := (c8_battery_normalisation).2.1 "776A5CE1" 1700000000000
    0x01 60 0x00 0x00 1 0x00 0x00 75 [] 0x0E "switchv2" ("closed", "open")
    (by decide) (by decide) (by decide)
  refine ⟨e, h1, ?_⟩
  rw [h2]
  decide

/-- Counterexample to C9's final clause: an incoming decoded event does not
flip a sensor back online — here the decoded switch-v2 alarm makes
`on_event` raise `AttributeError` on `event.MAC` before touching the
availability state, so an offline entry stays offline. -/
theorem c9_online_flip_counterexample :
    SensorEvent.parseAlarm "776A5CE1" 0xA2 0x0E 1000 [0x01, 60, 0x00, 0x00, 1, 0x00, 0x05, 75] =
      Except.ok ⟨"alarm", "776A5CE1", 1000, some "switchv2", some 100, some (-75), some "open",
        none, none, none, none, none⟩ ∧
    on_event true ⟨0, false⟩
      ⟨"alarm", "776A5CE1", 1000, some "switchv2", some 100, some (-75), some "open",
        none, none, none, none, none⟩ = Except.error (PyError.attributeErr "MAC") :=
  ⟨rfl, rfl⟩

/-- Claim C9 (amended): on each availability tick, for every registry entry
marked online, the timeout is the explicit `timeout` field when set, else
4 hours when `sw_version` is in the V2 set, else 8 hours; the entry flips to
`online := false` with an offline notification exactly when
`now - last_seen` exceeds that timeout; in particular an entry with
`last_seen = now - (timeout + 1)` goes offline on the next tick.  (The
original claim's final clause — a subsequent incoming event flips the entry
back online — fails: `on_event` errors before the availability update; see
the counterexample.) -/
theorem c9_availability_tick (now : Int) (cfg : SensorCfg) (st : SensorSt)
    (h : st.online = true) :
    (∀ t, cfg.timeout = some t → availabilityTimeout cfg = t) ∧
    (cfg.timeout = none → ∀ v, cfg.sw_version = some v → v ∈ V2_SW →
      availabilityTimeout cfg = 4 * 60 * 60) ∧
    (cfg.timeout = none → (∀ v, cfg.sw_version = some v → v ∉ V2_SW) →
      availabilityTimeout cfg = 8 * 60 * 60) ∧
    (now - st.last_seen > availabilityTimeout cfg ↔
      availabilityTick now cfg st = (⟨st.last_seen, false⟩, true)) ∧
    (¬ now - st.last_seen > availabilityTimeout cfg →
      availabilityTick now cfg st = (st, false)) ∧
    (st.last_seen = now - (availabilityTimeout cfg + 1) →
      availabilityTick now cfg st = (⟨st.last_seen, false⟩, true)) := by
  refine ⟨?_, ?_, ?_, ?_, ?_, ?_⟩
  · intro t ht
    simp [availabilityTimeout, ht]
  · intro h0 v hv hmem
    simp [availabilityTimeout, h0, hv, hmem, DEFAULT_V2_TIMEOUT_HOURS]
  · intro h0 hv
    cases hsw : cfg.sw_version with
    | none => simp [availabilityTimeout, h0, hsw, DEFAULT_V1_TIMEOUT_HOURS]
    | some v =>
      have hnot := hv v hsw
      simp [availabilityTimeout, h0, hsw, hnot, DEFAULT_V1_TIMEOUT_HOURS]
  · constructor
    · intro hgt
      rw [availabilityTick, if_pos h, if_pos hgt]
    · intro heq
      by_contra hngt
      rw [availabilityTick, if_pos h, if_neg hngt] at heq
      simp at heq
  · intro hngt
    rw [availabilityTick, if_pos h, if_neg hngt]
  · intro hls
    have hgt : now - st.last_seen > availabilityTimeout cfg := by
      rw [hls]
      omega
    rw [availabilityTick, if_pos h, if_pos hgt]

/-- Witness for C9's amended claim: a V2 sensor (`sw_version = 23`, no
explicit timeout) last seen `4 h + 1 s` ago goes offline on the tick. -/
theorem c9_availability_tick_witness :
    availabilityTimeout ⟨none, some 23⟩ = 4 * 60 * 60 ∧
    availabilityTick 1000000 ⟨none, some 23⟩ ⟨985599, true⟩ = (⟨985599, false⟩, true) := by
  have h := c9_availability_tick 1000000 ⟨none, some 23⟩ ⟨985599, true⟩ rfl
  refine ⟨h.2.1 rfl 23 rfl (by decide), ?_⟩
  exact h.2.2.2.2.2 (by decide)

/-- Claim C10 (confirmed): `Packet.DelAllSensor` references the class
attribute `CMD_DEL_ALL_SENSOR`, which is never defined (the defined constant
is `CMD_DEL_ALL_SENSORS`), so every `Dongle.DeleteAll` call raises
`AttributeError` before any packet is built or written — nothing reaches the
wire. -/
theorem c10_delete_all_attribute_error :
    Packet.getClassAttr "CMD_DEL_ALL_SENSOR" = none ∧
    Packet.getClassAttr "CMD_DEL_ALL_SENSORS" = some (MAKE_CMD TYPE_ASYNC 0x3F) ∧
    Packet.DelAllSensor = Except.error (PyError.attributeErr "CMD_DEL_ALL_SENSOR") ∧
    Dongle.DeleteAll = Except.error (PyError.attributeErr "CMD_DEL_ALL_SENSOR") :=
  ⟨rfl, rfl, rfl, rfl⟩
